import Mathlib

/-!
Verification of the `appinit` binary-distribution service, shallowly embedded
from the Python sources under `src/infra/lambda_functions/`:
`download_handler.py`, `list_handler.py`, `install_handler.py`.

Modelling conventions:
* Python strings are Lean `String`; `str.lower()` is modelled by mapping
  `Char.toLower` over the characters (ASCII case folding, which covers every
  keyword the handlers compare against).
* Python's substring operator `kw in s` is `containsSub s kw`, an executable
  containment test on the character lists.
* API-Gateway event dictionaries are structures whose optional dictionary
  fields are `Option (List (String × String))`; `dict.get(k, d)` is
  `(List.lookup k l).getD d`.
* The S3 client is an abstract backend record; `botocore` exceptions are the
  inductive `S3Error` (a `ClientError` carrying its error code, or any other
  exception).  `datetime` values are represented by their ISO-8601 rendering,
  so `last_modified.isoformat()` is the carried string itself.
* All handlers are total Lean functions, mirroring the fact that every
  Python handler catches exceptions at its own boundary.
-/

namespace AppInit

/-- Python `sub in s` on character lists: `startsWithL s kw` checks whether
`kw` is an initial segment of `s`. -/
def startsWithL : List Char → List Char → Bool
  | _, [] => true
  | [], _ :: _ => false
  | c :: cs, d :: ds => c == d && startsWithL cs ds

/-- `hasSubL s kw` : does `kw` occur contiguously anywhere in `s`?  This is
Python's `kw in s` membership test for strings. -/
def hasSubL : List Char → List Char → Bool
  | [], kw => kw.isEmpty
  | c :: cs, kw => startsWithL (c :: cs) kw || hasSubL cs kw

/-- Python `kw in s` on `String`s. -/
def containsSub (s kw : String) : Bool :=
  hasSubL s.data kw.data

/-- Python `s.lower()` (ASCII case folding). -/
def lowerStr (s : String) : String :=
  String.mk (s.data.map Char.toLower)

/-- The ordered keyword table iterated by `_detect_platform_from_user_agent`
(`download_handler.py`, lines 34-37): Python 3.7+ dicts iterate in insertion
order, so `darwin` is tested before `windows`. -/
def platformKeywords : List (String × List String) :=
  [("darwin", ["darwin", "mac"]), ("windows", ["windows", "win"])]

/-- The keyword table of `_detect_arch_from_user_agent`
(`download_handler.py`, lines 50-52). -/
def archKeywords : List (String × List String) :=
  [("arm64", ["arm64", "aarch64"])]

/-- The `for ... in table: if any(keyword in user_agent ...)` loop shared by
both detection functions, with its fall-through default. -/
def detectFromKeywords (userAgent : String) :
    List (String × List String) → String → String
  | [], dflt => dflt
  | (name, keywords) :: rest, dflt =>
    if keywords.any (fun kw => containsSub userAgent kw) then name
    else detectFromKeywords userAgent rest dflt

/-- `_detect_platform_from_user_agent` (`download_handler.py`, lines 30-43). -/
def detectPlatformFromUserAgent (userAgent : String) : String :=
  detectFromKeywords (lowerStr userAgent) platformKeywords "linux"

/-- `_detect_arch_from_user_agent` (`download_handler.py`, lines 46-58). -/
def detectArchFromUserAgent (userAgent : String) : String :=
  detectFromKeywords (lowerStr userAgent) archKeywords "amd64"

/-- `_construct_binary_key` (`download_handler.py`, lines 77-80). -/
def constructBinaryKey (platform arch : String) : String :=
  let suffix := if platform = "windows" then ".exe" else ""
  "appinit-" ++ platform ++ "-" ++ arch ++ suffix

/-- A JSON value, the shape produced by `json.dumps` in the handlers
(object key order is the Python dict insertion order). -/
inductive Json where
  | str : String → Json
  | num : Nat → Json
  | arr : List Json → Json
  | obj : List (String × Json) → Json

/-- Field lookup in a JSON object (used to state what a body contains). -/
def Json.getField : Json → String → Option Json
  | .obj fields, k => List.lookup k fields
  | _, _ => none

/-- An HTTP response as the handler dicts build it: `statusCode`, the
`headers` dict (empty when the Python dict has no `headers` key), and the
body, of type `β` (`Json` for the dumped bodies, `String` for the raw
install-script body). -/
structure Resp (β : Type) where
  statusCode : Nat
  headers : List (String × String)
  body : β
  /- no further fields appear in any handler response -/

/-- The API-Gateway event fields read by `download_handler.py`:
`queryStringParameters` (may be absent or JSON `null` — both collapse to the
empty dict by `event.get(...) or {}`) and `headers`
(absent collapses to the empty dict by `event.get("headers", {})`). -/
structure DownloadEvent where
  queryStringParameters : Option (List (String × String))
  headers : Option (List (String × String))

/-- `_get_platform_and_arch` (`download_handler.py`, lines 61-74). -/
def getPlatformAndArch (event : DownloadEvent) : String × String :=
  let queryParams := event.queryStringParameters.getD []
  let platform := (List.lookup "platform" queryParams).getD ""
  let arch := (List.lookup "arch" queryParams).getD ""
  if platform = "" ∨ arch = "" then
    let userAgent := (List.lookup "User-Agent" (event.headers.getD [])).getD ""
    (if platform = "" then detectPlatformFromUserAgent userAgent else platform,
     if arch = "" then detectArchFromUserAgent userAgent else arch)
  else
    (platform, arch)

/-- A `botocore` exception as `download_handler.py` discriminates them: a
`ClientError` carrying `e.response["Error"]["Code"]`, or any other
exception. -/
inductive S3Error where
  | clientError (code : String)
  | otherException
deriving DecidableEq

/-- The error codes `download_handler.py` line 122 treats as not-found. -/
def notFoundCodes : List String := ["NoSuchKey", "404"]

/-- The abstract S3 backend seen by the download handler: `head_object`
either succeeds or raises, and `generate_presigned_url` is a local signing
computation (no API call, no failure mode) from key and expiry to a URL.
The bucket name (environment variable `BUCKET_NAME`) is folded into the
backend record. -/
structure S3Backend where
  headObject : String → Except S3Error Unit
  generatePresignedUrl : String → Nat → String

/-- The `except` branches of `download_handler.py`, lines 121-141: a
`ClientError` with a not-found code yields the 404 body; every other error
yields the fixed generic 500 body. -/
def downloadErrorResponse (platform arch : String) : S3Error → Resp Json
  | .clientError code =>
    if notFoundCodes.contains code then
      { statusCode := 404
        headers := []
        body := Json.obj
          [("error", Json.str ("Binary not found for " ++ platform ++ "/" ++ arch)),
           ("available_binaries", Json.str "Check /list endpoint")] }
    else
      { statusCode := 500
        headers := []
        body := Json.obj [("error", Json.str "Internal server error")] }
  | .otherException =>
    { statusCode := 500
      headers := []
      body := Json.obj [("error", Json.str "Internal server error")] }

/-- `lambda_handler` of `download_handler.py` (lines 83-141), parameterized
by the backend and by `PRESIGNED_URL_EXPIRY`. -/
def downloadLambdaHandler (s3 : S3Backend) (presignedUrlExpiry : Nat)
    (event : DownloadEvent) : Resp Json :=
  let pa := getPlatformAndArch event
  let binaryKey := constructBinaryKey pa.1 pa.2
  match s3.headObject binaryKey with
  | .ok _ =>
    let presignedUrl := s3.generatePresignedUrl binaryKey presignedUrlExpiry
    { statusCode := 302
      headers := [("Location", presignedUrl), ("Content-Type", "application/json")]
      body := Json.obj [("url", Json.str presignedUrl)] }
  | .error e => downloadErrorResponse pa.1 pa.2 e

/-- One entry of the S3 `list_objects_v2` `Contents` array as
`list_handler.py` reads it: every field is fetched with `.get`, so each is
optional.  A `LastModified` datetime is represented by its ISO-8601
rendering (Python datetimes are always truthy, so presence alone decides
the `if last_modified` branch). -/
structure S3Object where
  key : Option String
  size : Option Nat
  lastModified : Option String
deriving DecidableEq

/-- The `list_objects_v2` response: the `Contents` key may be absent
(`list_handler.py` line 45 tests `"Contents" in response`). -/
structure ListObjectsResponse where
  contents : Option (List S3Object)

/-- `_format_binary_info` (`list_handler.py`, lines 29-36). -/
def formatBinaryInfo (obj : S3Object) : Json :=
  Json.obj
    [("name", Json.str (obj.key.getD "")),
     ("size", Json.num (obj.size.getD 0)),
     ("last_modified", Json.str (match obj.lastModified with
        | some t => t
        | none => ""))]

/-- `_get_binaries_from_s3` (`list_handler.py`, lines 39-49), applied to the
outcome of the backend's listing call. -/
def getBinariesFromS3 (response : ListObjectsResponse) : List Json :=
  match response.contents with
  | some objs => objs.map formatBinaryInfo
  | none => []

/-- `str(e)` for the caught exception in `list_handler.py` line 80. -/
def s3ErrorMessage : S3Error → String
  | .clientError code =>
    "An error occurred (" ++ code ++ ") when calling the ListObjectsV2 operation"
  | .otherException => "unexpected error"

/-- `lambda_handler` of `list_handler.py` (lines 52-80), applied to the
result of the single `list_objects_v2` backend call (which either returns a
response or raises). -/
def listLambdaHandler (result : Except S3Error ListObjectsResponse) : Resp Json :=
  match result with
  | .ok response =>
    { statusCode := 200
      headers := [("Content-Type", "application/json"),
                  ("Access-Control-Allow-Origin", "*")]
      body := Json.obj
        [("binaries", Json.arr (getBinariesFromS3 response)),
         ("download_url",
          Json.str "https://your-api-url/download?platform=<platform>&arch=<arch>")] }
  | .error e =>
    { statusCode := 500
      headers := []
      body := Json.obj [("error", Json.str (s3ErrorMessage e))] }

/-- A single-quote character, used in the install-script text. -/
def sq : String := String.singleton (Char.ofNat 39)

/-- The text of the f-string of `_generate_install_script`
(`install_handler.py`, lines 24-44) up to and including `DOWNLOAD_URL="`,
before the interpolated download URL. -/
def scriptBeforeUrl : String :=
  "#!/bin/bash\nset -e\n\nOS=$(uname -s | tr " ++ sq ++ "[:upper:]" ++ sq
    ++ " " ++ sq ++ "[:lower:]" ++ sq ++ ")\nARCH=$(uname -m)\n\n"
    ++ "case $ARCH in\n    x86_64) ARCH=\"amd64\" ;;\n"
    ++ "    aarch64|arm64) ARCH=\"arm64\" ;;\n"
    ++ "    *) echo \"Unsupported architecture: $ARCH\"; exit 1 ;;\nesac\n\n"
    ++ "case $OS in\n    darwin) OS=\"darwin\" ;;\n    linux) OS=\"linux\" ;;\n"
    ++ "    *) echo \"Unsupported OS: $OS\"; exit 1 ;;\nesac\n\n"
    ++ "echo \"Downloading appinit for $OS/$ARCH...\"\n\nDOWNLOAD_URL=\""

/-- The text of the f-string of `_generate_install_script`
(`install_handler.py`, lines 44-58) from the closing quote of
`DOWNLOAD_URL` to the end. -/
def scriptAfterUrl : String :=
  "\"\ncurl -L -o appinit \"$DOWNLOAD_URL\"\n\nchmod +x appinit\n\n"
    ++ "if [ -w \"/usr/local/bin\" ]; then\n    mv appinit /usr/local/bin/\n"
    ++ "    echo \"appinit installed to /usr/local/bin/appinit\"\nelse\n"
    ++ "    echo \"appinit downloaded to current directory\"\n"
    ++ "    echo \"To install globally, run: sudo mv appinit /usr/local/bin/\"\nfi\n\n"
    ++ "echo \"Installation complete! Run " ++ sq ++ "appinit --help" ++ sq
    ++ " to get started.\"\n"

/-- The interpolated download URL of `install_handler.py` line 44. -/
def downloadUrlLiteral (domainName stage : String) : String :=
  "https://" ++ domainName ++ "/" ++ stage ++ "/download?platform=$OS&arch=$ARCH"

/-- `_generate_install_script` (`install_handler.py`, lines 22-58): the fixed
script text with `domain_name` and `stage` substituted once each into the
download URL. -/
def generateInstallScript (domainName stage : String) : String :=
  scriptBeforeUrl ++ downloadUrlLiteral domainName stage ++ scriptAfterUrl

/-- The API-Gateway event field read by `install_handler.py`:
`requestContext` (absent collapses to the empty dict). -/
structure InstallEvent where
  requestContext : Option (List (String × String))

/-- `lambda_handler` of `install_handler.py` (lines 61-88). -/
def installLambdaHandler (event : InstallEvent) : Resp String :=
  let requestContext := event.requestContext.getD []
  let domainName := (List.lookup "domainName" requestContext).getD "localhost"
  let stage := (List.lookup "stage" requestContext).getD "dev"
  { statusCode := 200
    headers := [("Content-Type", "text/plain"),
                ("Content-Disposition", "attachment; filename=\"install.sh\"")]
    body := generateInstallScript domainName stage }

/-! ## Theorems -/

/-- C2: For every User-Agent string, case-insensitive substring inference
yields: platform `"darwin"` if the lowercased string contains `"darwin"` or
`"mac"`, `"windows"` if it contains `"windows"` or `"win"`, else `"linux"`;
and architecture `"arm64"` if it contains `"arm64"` or `"aarch64"`, else
`"amd64"`. -/
theorem C2_user_agent_detection (ua : String) :
    detectPlatformFromUserAgent ua =
      (if containsSub (lowerStr ua) "darwin" || containsSub (lowerStr ua) "mac"
        then "darwin"
        else if containsSub (lowerStr ua) "windows" || containsSub (lowerStr ua) "win"
          then "windows"
          else "linux")
    ∧ detectArchFromUserAgent ua =
      (if containsSub (lowerStr ua) "arm64" || containsSub (lowerStr ua) "aarch64"
        then "arm64"
        else "amd64") := by
  constructor <;>
    simp [detectPlatformFromUserAgent, detectArchFromUserAgent,
      detectFromKeywords, platformKeywords, archKeywords]

/-- C3: `_construct_binary_key` returns `"appinit-{platform}-{arch}"` with
`.exe` appended exactly when the platform is `"windows"`; it is a
deterministic total Lean function, and the two concrete keys of the spec
evaluate as stated. -/
theorem C3_binary_key (p a : String) :
    (p = "windows" → constructBinaryKey p a = "appinit-" ++ p ++ "-" ++ a ++ ".exe")
    ∧ (p ≠ "windows" → constructBinaryKey p a = "appinit-" ++ p ++ "-" ++ a)
    ∧ constructBinaryKey "windows" "amd64" = "appinit-windows-amd64.exe"
    ∧ constructBinaryKey "linux" "arm64" = "appinit-linux-arm64" := by
  refine ⟨fun h => ?_, fun h => ?_, by decide, by decide⟩
  · simp [constructBinaryKey, h]
  · simp [constructBinaryKey, h]

/-- Witness for C3 at the two concrete key constructions of the spec. -/
theorem C3_binary_key_witness :
    constructBinaryKey "windows" "amd64" = "appinit-" ++ "windows" ++ "-" ++ "amd64" ++ ".exe"
    ∧ constructBinaryKey "linux" "arm64" = "appinit-" ++ "linux" ++ "-" ++ "arm64" :=
  ⟨(C3_binary_key "windows" "amd64").1 rfl,
   (C3_binary_key "linux" "arm64").2.1 (by decide)⟩

/-- C10: the darwin keywords are tested before the windows keywords, so any
User-Agent whose lowercase form contains `"darwin"` or `"mac"` resolves to
`"darwin"` and never to `"windows"` — even though `"darwin"` itself contains
the substring `"win"`. -/
theorem C10_darwin_before_windows (ua : String)
    (h : containsSub (lowerStr ua) "darwin" = true ∨ containsSub (lowerStr ua) "mac" = true) :
    detectPlatformFromUserAgent ua = "darwin"
    ∧ detectPlatformFromUserAgent ua ≠ "windows" := by
  have hd : detectPlatformFromUserAgent ua = "darwin" := by
    rcases h with h | h <;>
      simp [detectPlatformFromUserAgent, detectFromKeywords, platformKeywords, h]
  exact ⟨hd, by rw [hd]; decide⟩

/-- Witness for C10: a User-Agent containing both `mac` and `windows`
keywords still resolves to darwin. -/
theorem C10_darwin_before_windows_witness :
    detectPlatformFromUserAgent "Macintosh; Windows NT" = "darwin"
    ∧ detectPlatformFromUserAgent "Macintosh; Windows NT" ≠ "windows" :=
  C10_darwin_before_windows "Macintosh; Windows NT" (Or.inr (by decide))

/-- C1: when the query parameters carry both a non-empty `platform` and a
non-empty `arch`, `_get_platform_and_arch` returns exactly that pair,
whatever the headers (hence whatever the User-Agent) hold, with no
validation of the values. -/
theorem C1_query_params_verbatim (e : DownloadEvent) (qp : List (String × String))
    (p a : String)
    (hq : e.queryStringParameters = some qp)
    (hp : List.lookup "platform" qp = some p) (hp0 : p ≠ "")
    (ha : List.lookup "arch" qp = some a) (ha0 : a ≠ "") :
    getPlatformAndArch e = (p, a) := by
  simp [getPlatformAndArch, hq, hp, ha, hp0, ha0]

/-- A request carrying unvalidated query parameters and a contradicting
User-Agent, used to witness C1. -/
def c1Event : DownloadEvent :=
  { queryStringParameters := some [("platform", "freebsd"), ("arch", "riscv64")]
    headers := some [("User-Agent", "Darwin arm64")] }

/-- Witness for C1: explicit (even unrecognized) parameters beat a
contradicting User-Agent. -/
theorem C1_query_params_verbatim_witness :
    getPlatformAndArch c1Event = ("freebsd", "riscv64") :=
  C1_query_params_verbatim c1Event [("platform", "freebsd"), ("arch", "riscv64")]
    "freebsd" "riscv64" rfl (by decide) (by decide) (by decide) (by decide)

/-- C7: `_get_platform_and_arch` always returns a (platform, arch) pair (it
is a total function of the event), and when the `User-Agent` header is
missing or empty — it is read back as the empty string — and neither query
parameter supplies a value, the result is the default pair
`("linux", "amd64")`. -/
theorem C7_total_and_defaults (e : DownloadEvent) :
    (∃ p a, getPlatformAndArch e = (p, a))
    ∧ ((List.lookup "platform" (e.queryStringParameters.getD [])).getD "" = "" →
       (List.lookup "arch" (e.queryStringParameters.getD [])).getD "" = "" →
       (List.lookup "User-Agent" (e.headers.getD [])).getD "" = "" →
       getPlatformAndArch e = ("linux", "amd64")) := by
  refine ⟨⟨(getPlatformAndArch e).1, (getPlatformAndArch e).2, rfl⟩, ?_⟩
  intro hp ha hu
  simp [getPlatformAndArch, hp, ha, hu]
  exact ⟨by decide, by decide⟩

/-- Witness for C7: the empty event (no query parameters, no headers) yields
the defaults. -/
theorem C7_total_and_defaults_witness :
    getPlatformAndArch { queryStringParameters := none, headers := none } = ("linux", "amd64") :=
  (C7_total_and_defaults { queryStringParameters := none, headers := none }).2
    rfl rfl rfl

/-- C4: when the existence check on the resolved binary key succeeds, the
download handler answers 302 with a `Location` header set to the generated
pre-signed URL (non-empty whenever the backend generates a non-empty URL)
and echoes the same URL in the JSON body under the key `url`. -/
theorem C4_found_redirects (s3 : S3Backend) (expiry : Nat) (e : DownloadEvent)
    (key url : String)
    (hkey : key = constructBinaryKey (getPlatformAndArch e).1 (getPlatformAndArch e).2)
    (hok : s3.headObject key = Except.ok ())
    (hurl : url = s3.generatePresignedUrl key expiry)
    (hne : url ≠ "") :
    (downloadLambdaHandler s3 expiry e).statusCode = 302
    ∧ List.lookup "Location" (downloadLambdaHandler s3 expiry e).headers = some url
    ∧ url ≠ ""
    ∧ (downloadLambdaHandler s3 expiry e).body.getField "url" = some (Json.str url) := by
  subst hkey hurl
  simp [downloadLambdaHandler, hok, Json.getField, hne]

/-- A backend holding exactly the key `appinit-linux-amd64`, used to witness
C4 and C5. -/
def twoKeyBackend : S3Backend :=
  { headObject := fun key =>
      if key = "appinit-linux-amd64" then Except.ok ()
      else Except.error (S3Error.clientError "404")
    generatePresignedUrl := fun key _expiry => "https://s3.example/" ++ key ++ "?signed" }

/-- The download request `platform=linux&arch=amd64`, used to witness C4. -/
def c4Event : DownloadEvent :=
  { queryStringParameters := some [("platform", "linux"), ("arch", "amd64")]
    headers := none }

/-- Witness for C4: the stored key is found and its pre-signed URL is
returned by redirect. -/
theorem C4_found_redirects_witness :
    (downloadLambdaHandler twoKeyBackend 3600 c4Event).statusCode = 302
    ∧ List.lookup "Location" (downloadLambdaHandler twoKeyBackend 3600 c4Event).headers
        = some "https://s3.example/appinit-linux-amd64?signed"
    ∧ "https://s3.example/appinit-linux-amd64?signed" ≠ ""
    ∧ (downloadLambdaHandler twoKeyBackend 3600 c4Event).body.getField "url"
        = some (Json.str "https://s3.example/appinit-linux-amd64?signed") :=
  C4_found_redirects twoKeyBackend 3600 c4Event "appinit-linux-amd64"
    "https://s3.example/appinit-linux-amd64?signed" (by decide) rfl rfl (by decide)

/-- C5: when the existence check fails with a not-found `ClientError` (code
`NoSuchKey` or `404`), the download handler answers 404 and the JSON body
has an `error` key naming the unresolved platform/arch and an
`available_binaries` pointer to the `/list` endpoint. -/
theorem C5_not_found (s3 : S3Backend) (expiry : Nat) (e : DownloadEvent)
    (key code : String)
    (hkey : key = constructBinaryKey (getPlatformAndArch e).1 (getPlatformAndArch e).2)
    (herr : s3.headObject key = Except.error (S3Error.clientError code))
    (hcode : code = "NoSuchKey" ∨ code = "404") :
    (downloadLambdaHandler s3 expiry e).statusCode = 404
    ∧ (downloadLambdaHandler s3 expiry e).body.getField "error"
        = some (Json.str ("Binary not found for " ++ (getPlatformAndArch e).1 ++ "/"
            ++ (getPlatformAndArch e).2))
    ∧ (downloadLambdaHandler s3 expiry e).body.getField "available_binaries"
        = some (Json.str "Check /list endpoint") := by
  subst hkey
  rcases hcode with h | h <;> subst h <;>
    refine ⟨?_, ?_, ?_⟩ <;>
      simp [downloadLambdaHandler, herr, downloadErrorResponse, notFoundCodes,
        Json.getField] <;> rfl

/-- The download request `platform=darwin&arch=arm64`, whose key is absent
from `twoKeyBackend`; witnesses C5. -/
def c5Event : DownloadEvent :=
  { queryStringParameters := some [("platform", "darwin"), ("arch", "arm64")]
    headers := none }

/-- Witness for C5: a missing key produces the 404 body. -/
theorem C5_not_found_witness :
    (downloadLambdaHandler twoKeyBackend 3600 c5Event).statusCode = 404
    ∧ (downloadLambdaHandler twoKeyBackend 3600 c5Event).body.getField "error"
        = some (Json.str ("Binary not found for " ++ (getPlatformAndArch c5Event).1 ++ "/"
            ++ (getPlatformAndArch c5Event).2))
    ∧ (downloadLambdaHandler twoKeyBackend 3600 c5Event).body.getField "available_binaries"
        = some (Json.str "Check /list endpoint") :=
  C5_not_found twoKeyBackend 3600 c5Event "appinit-darwin-arm64" "404"
    (by decide) rfl (Or.inr rfl)

/-- C6: any backend error other than a not-found `ClientError` makes the
download handler answer exactly the fixed generic 500 response — the body
carries nothing derived from the backend error, and totality of the Lean
function mirrors that no exception escapes the handler. -/
theorem C6_other_errors_500 (s3 : S3Backend) (expiry : Nat) (e : DownloadEvent)
    (key : String) (err : S3Error)
    (hkey : key = constructBinaryKey (getPlatformAndArch e).1 (getPlatformAndArch e).2)
    (herr : s3.headObject key = Except.error err)
    (hnf : ∀ code, err = S3Error.clientError code → code ≠ "NoSuchKey" ∧ code ≠ "404") :
    downloadLambdaHandler s3 expiry e =
      { statusCode := 500
        headers := []
        body := Json.obj [("error", Json.str "Internal server error")] } := by
  subst hkey
  cases err with
  | clientError code =>
    obtain ⟨h1, h2⟩ := hnf code rfl
    simp [downloadLambdaHandler, herr, downloadErrorResponse, notFoundCodes, h1, h2]
  | otherException =>
    simp [downloadLambdaHandler, herr, downloadErrorResponse]

/-- A backend whose `head_object` always raises an access-denied
`ClientError`; witnesses C6. -/
def deniedBackend : S3Backend :=
  { headObject := fun _ => Except.error (S3Error.clientError "AccessDenied")
    generatePresignedUrl := fun key _expiry => "https://s3.example/" ++ key ++ "?signed" }

/-- Witness for C6: an access-denied backend error yields the fixed generic
500 response. -/
theorem C6_other_errors_500_witness :
    downloadLambdaHandler deniedBackend 3600 { queryStringParameters := none, headers := none } =
      { statusCode := 500
        headers := []
        body := Json.obj [("error", Json.str "Internal server error")] } :=
  C6_other_errors_500 deniedBackend 3600 { queryStringParameters := none, headers := none }
    "appinit-linux-amd64" (S3Error.clientError "AccessDenied")
    (by decide) rfl
    (fun code hc => by
      cases hc
      exact ⟨by decide, by decide⟩)

/-- C8: a successful listing yields status 200 and a JSON body whose
`binaries` array holds exactly one formatted entry per listed object —
`{name, size, last_modified}` with the ISO-8601 rendering of the timestamp
or the empty string when it is unavailable — next to the `download_url`
template string. -/
theorem C8_list_success (response : ListObjectsResponse) :
    listLambdaHandler (Except.ok response) =
      { statusCode := 200
        headers := [("Content-Type", "application/json"),
                    ("Access-Control-Allow-Origin", "*")]
        body := Json.obj
          [("binaries", Json.arr ((response.contents.getD []).map formatBinaryInfo)),
           ("download_url",
            Json.str "https://your-api-url/download?platform=<platform>&arch=<arch>")] }
    ∧ ((response.contents.getD []).map formatBinaryInfo).length
        = (response.contents.getD []).length
    ∧ ∀ obj ∈ response.contents.getD [],
        formatBinaryInfo obj = Json.obj
          [("name", Json.str (obj.key.getD "")),
           ("size", Json.num (obj.size.getD 0)),
           ("last_modified", Json.str (obj.lastModified.getD ""))] := by
  refine ⟨?_, (response.contents.getD []).length_map formatBinaryInfo, ?_⟩
  · cases hc : response.contents <;>
      simp [listLambdaHandler, getBinariesFromS3, hc]
  · intro obj _
    cases hm : obj.lastModified <;> simp [formatBinaryInfo, hm]

/-- A listing response holding two objects, the second without a
`LastModified` timestamp; witnesses C8. -/
def c8Response : ListObjectsResponse :=
  { contents := some
      [{ key := some "appinit-linux-amd64", size := some 1024,
         lastModified := some "2024-01-01T00:00:00+00:00" },
       { key := some "appinit-windows-amd64.exe", size := some 2048,
         lastModified := none }] }

/-- Witness for C8: two listed objects give two formatted entries, and the
first entry carries its name, size and ISO-8601 timestamp. -/
theorem C8_list_success_witness :
    ((c8Response.contents.getD []).map formatBinaryInfo).length
        = (c8Response.contents.getD []).length
    ∧ formatBinaryInfo
        { key := some "appinit-linux-amd64", size := some 1024,
          lastModified := some "2024-01-01T00:00:00+00:00" }
      = Json.obj
          [("name", Json.str ((some "appinit-linux-amd64").getD "")),
           ("size", Json.num ((some 1024).getD 0)),
           ("last_modified", Json.str ((some "2024-01-01T00:00:00+00:00").getD ""))] :=
  ⟨(C8_list_success c8Response).2.1,
   (C8_list_success c8Response).2.2
     { key := some "appinit-linux-amd64", size := some 1024,
       lastModified := some "2024-01-01T00:00:00+00:00" }
     (by decide)⟩

/-- C9: the install handler always answers 200 with `Content-Type:
text/plain` and a `Content-Disposition` naming `install.sh`; the body is the
rendered shell script, which contains the literal download URL
`https://{domainName}/{stage}/download?platform=$OS&arch=$ARCH` for the
`domainName` and `stage` taken from the routing context with defaults
`localhost` and `dev`; the handler is a total function (no error path). -/
theorem C9_install_script (e : InstallEvent) (domainName stage : String)
    (hd : domainName = (List.lookup "domainName" (e.requestContext.getD [])).getD "localhost")
    (hs : stage = (List.lookup "stage" (e.requestContext.getD [])).getD "dev") :
    installLambdaHandler e =
      { statusCode := 200
        headers := [("Content-Type", "text/plain"),
                    ("Content-Disposition", "attachment; filename=\"install.sh\"")]
        body := generateInstallScript domainName stage }
    ∧ ∃ pre post, generateInstallScript domainName stage
        = pre ++ downloadUrlLiteral domainName stage ++ post := by
  subst hd hs
  exact ⟨rfl, scriptBeforeUrl, scriptAfterUrl, rfl⟩

/-- Witness for C9: with no routing context the defaults `localhost`/`dev`
are rendered into the script. -/
theorem C9_install_script_witness :
    installLambdaHandler { requestContext := none } =
      { statusCode := 200
        headers := [("Content-Type", "text/plain"),
                    ("Content-Disposition", "attachment; filename=\"install.sh\"")]
        body := generateInstallScript "localhost" "dev" }
    ∧ ∃ pre post, generateInstallScript "localhost" "dev"
        = pre ++ downloadUrlLiteral "localhost" "dev" ++ post :=
  C9_install_script { requestContext := none } "localhost" "dev" rfl rfl

end AppInit
